import Mathlib

/-!
Verification of the near-real-time index engine
(`com.tle.core.freetext.index.AbstractIndexEngine`).

The engine is embedded shallowly: each Java method becomes a pure Lean
function over an explicit engine state, exceptions become `Except` or
explicit outcome types, and the externally visible calls a method makes
(wait, acquire, release, the lifecycle steps) are recorded as event
traces so ordering and balance properties can be stated.
-/

namespace AbstractIndexEngine

/-! ## Write path: `modifyIndex` and the generation tracker

`modifyIndex(builder)` runs `builder.buildIndex` once with a local
`long g = -1`; a `finally` block then sets
`generation = Math.max(g, generation)`, and an outer catch wraps any
exception from the builder in `RuntimeException("Error while building
index", ex)` and rethrows it.  The builder outcome is modelled as
`Except E Int`: the generation it returned, or the exception it threw. -/

/-- A fatal write error: the `RuntimeException(msg, cause)` thrown by
`modifyIndex` when the supplied `IndexBuilder` throws. -/
inductive WriteError (E : Type) : Type where
  | wrapped (msg : String) (cause : E)
  deriving DecidableEq

/-- One call to `modifyIndex` given the tracked `generation` field and the
outcome of the single `builder.buildIndex` invocation.  Returns the new
value of the `generation` field together with what the call returns or
throws.  On success the `finally` block stores `max g generation`; on a
builder exception `g` is still `-1`, so the `finally` block stores
`max (-1) generation`, and the exception is wrapped and rethrown. -/
def modifyIndex {E : Type} (generation : Int) (built : Except E Int) :
    Int × Except (WriteError E) Unit :=
  match built with
  | Except.ok g => (max g generation, Except.ok ())
  | Except.error e =>
      (max (-1) generation, Except.error (WriteError.wrapped "Error while building index" e))

/-- The same call, with the builder given as a function from invocation
number to outcome: `modifyIndex` invokes the builder exactly once, so
only invocation `0` is ever consulted. -/
def modifyIndexWith {E : Type} (generation : Int) (builder : Nat → Except E Int) :
    Int × Except (WriteError E) Unit :=
  modifyIndex generation (builder 0)

/-- The effect of one `modifyIndex` call on the tracked generation field. -/
def writeStep {E : Type} (generation : Int) (built : Except E Int) : Int :=
  (modifyIndex generation built).1

/-- The tracked generation after a sequence of `modifyIndex` calls,
starting from the field initialiser `generation = -1`. -/
def runWrites {E : Type} (builds : List (Except E Int)) : Int :=
  builds.foldl writeStep (-1)

theorem le_writeStep {E : Type} (generation : Int) (built : Except E Int) :
    generation ≤ writeStep generation built := by
  cases built with
  | ok g => exact le_max_right g generation
  | error e => exact le_max_right (-1) generation

theorem le_foldl_writeStep {E : Type} (builds : List (Except E Int)) (start : Int) :
    start ≤ builds.foldl writeStep start := by
  induction builds generalizing start with
  | nil => exact le_refl start
  | cons b rest ih => exact le_trans (le_writeStep start b) (ih (writeStep start b))

theorem neg_one_le_runWrites {E : Type} (builds : List (Except E Int)) :
    (-1 : Int) ≤ runWrites builds :=
  le_foldl_writeStep builds (-1)

theorem runWrites_append_one {E : Type} (builds : List (Except E Int)) (b : Except E Int) :
    runWrites (builds ++ [b]) = writeStep (runWrites builds) b := by
  unfold runWrites
  rw [List.foldl_append]
  rfl

/-! ## Search path: `search`

`search(s)` does `nrtManager.waitForGeneration(generation)`, then
`acquire()`, then runs the caller-supplied `Searcher` inside
`try / catch (IOException) / finally`.  The catch wraps an `IOException`
from the searcher in `ErrorDuringSearchException("Error searching
index", ex)`.  The finally block releases the acquired searcher once;
an `IOException` from `release` is wrapped in
`ErrorDuringSearchException("Error releasing searcher", ex)`, and by
Java semantics an exception thrown from a finally block replaces any
pending result or exception of the try block. -/

/-- Outcome of running the caller-supplied `Searcher` on the acquired
snapshot: its result, the `IOException` it threw, or the non-I/O
(unchecked) exception it threw. -/
inductive SOutcome (RV E O : Type) : Type where
  | ok (rv : RV)
  | ioFailure (e : E)
  | otherFailure (o : O)
  deriving DecidableEq

/-- An exception leaving `search`: an `ErrorDuringSearchException`
carrying its message and cause, or a non-I/O exception from the searcher
propagated unwrapped. -/
inductive Thrown (E O : Type) : Type where
  | duringSearch (msg : String) (cause : E)
  | uncaught (o : O)
  deriving DecidableEq

/-- The calls `search` makes on the `NRTManager`, in order. -/
inductive SearchEvent : Type where
  | waitForGen (g : Int)
  | acquireSearcher
  | releaseSearcher
  deriving DecidableEq

/-- The `try { return s.search(...) } catch (IOException ex) { throw new
ErrorDuringSearchException("Error searching index", ex) }` part of
`search`: an I/O failure is wrapped, any other exception passes through
the catch unchanged. -/
def tryCatchBody {RV E O : Type} (fnOut : SOutcome RV E O) : Except (Thrown E O) RV :=
  match fnOut with
  | SOutcome.ok rv => Except.ok rv
  | SOutcome.ioFailure e => Except.error (Thrown.duringSearch "Error searching index" e)
  | SOutcome.otherFailure o => Except.error (Thrown.uncaught o)

/-- The `finally` block of `search`: release the acquired searcher once.
If `release` throws an `IOException` it is wrapped in
`ErrorDuringSearchException("Error releasing searcher", ex)` which, per
Java finally semantics, replaces any pending result or exception. -/
def finallyRelease {RV E O : Type} (pending : Except (Thrown E O) RV)
    (releaseOut : Option E) : Except (Thrown E O) RV :=
  match releaseOut with
  | none => pending
  | some r => Except.error (Thrown.duringSearch "Error releasing searcher" r)

/-- One call to `search`: `generation` is the engine's tracked
generation field, `fnOut` the outcome of the caller-supplied searcher on
the acquired snapshot, `releaseOut` the outcome of the single
`nrtManager.release` call (`none` = success).  Returns the trace of
`NRTManager` calls and the result returned or exception thrown. -/
def search {RV E O : Type} (generation : Int) (fnOut : SOutcome RV E O)
    (releaseOut : Option E) : List SearchEvent × Except (Thrown E O) RV :=
  ([SearchEvent.waitForGen generation, SearchEvent.acquireSearcher,
    SearchEvent.releaseSearcher],
   finallyRelease (tryCatchBody fnOut) releaseOut)

/-- Effect of one `NRTManager` call on the snapshot refcount: `acquire`
increments, `release` decrements. -/
def refDelta : SearchEvent → Int
  | SearchEvent.acquireSearcher => 1
  | SearchEvent.releaseSearcher => -1
  | SearchEvent.waitForGen _ => 0

/-! ## Analyzer registry: `getAnalyser`

`getAnalyser` lazily builds a `PerFieldAnalyzerWrapper` and caches it in
the private `analyzer` field; once non-null, every call returns the
cached value.  The build creates `TLEAnalyzer(stopSet, true)` (normal),
`TLEAnalyzer(stopSet, false)` (non-stemmed) and `TLEAnalyzer(null,
false)` (autocomplete).  For a non-`"en"` language it scans the Lucene
package `org.apache.lucene.analysis.<language>` for an analyzer class;
if one is found it is instantiated by reflection as the normal analyzer
and its `getDefaultStopSet` supplies stopwords for a non-stemmed
`TLEAnalyzer`; if the reflective calls fail, both normal and non-stemmed
roles fall back to the autocomplete analyzer and a warning is logged; if
no class is found, the block is skipped and the defaults stand.  The
classpath scan and reflection outcome is modelled as an optional
`Except`: `none` = no analyzer class found, `ok (className, stops)` =
instantiated with its default stop set, `error` = reflection failed. -/

/-- Reflection failure while instantiating a language analyzer: the
exceptions `getAnalyser` catches. -/
inductive ReflErr : Type where
  | instantiationFailed
  | noSuchMethod
  | invocationTarget
  | illegalAccess
  deriving DecidableEq

/-- An analyzer value: a `TLEAnalyzer(stopSet, useStemming)` or a
reflectively instantiated Lucene language analyzer, identified by class
name. -/
inductive AnalyzerCore : Type where
  | tle (stopSet : Option (List String)) (stem : Bool)
  | lucene (className : String)
  deriving DecidableEq

/-- The cached `PerFieldAnalyzerWrapper`: its default analyzer and the
two analyzers handed to the abstract `getAnalyzerFieldMap` hook (the
concrete per-field map is subclass-supplied and fixed, so the wrapper is
determined by these three analyzers). -/
structure PerFieldAnalyzerWrapper : Type where
  defaultAnalyzer : AnalyzerCore
  autoComplete : AnalyzerCore
  nonStemmed : AnalyzerCore
  deriving DecidableEq

/-- Result of one analyzer build: the wrapper, and whether the
"language analyzer is not available" warning was logged. -/
structure AnalyserBuild : Type where
  wrapper : PerFieldAnalyzerWrapper
  warnedLanguageFallback : Bool
  deriving DecidableEq

/-- The analyzer construction performed by `getAnalyser` on a cache
miss, given the configured language, the loaded stopword set (`none`
when the file is missing or unreadable), and the classpath scan and
reflection outcome for that language. -/
def buildAnalyser (language : String) (stopSet : Option (List String))
    (provider : Option (Except ReflErr (String × List String))) : AnalyserBuild :=
  let normalAnalyzer := AnalyzerCore.tle stopSet true
  let nonStemmedAnalyzer := AnalyzerCore.tle stopSet false
  let autoCompleteAnalyzer := AnalyzerCore.tle none false
  if language = "en" then
    { wrapper := ⟨normalAnalyzer, autoCompleteAnalyzer, nonStemmedAnalyzer⟩,
      warnedLanguageFallback := false }
  else
    match provider with
    | some (Except.ok (className, langStops)) =>
        { wrapper := ⟨AnalyzerCore.lucene className, autoCompleteAnalyzer,
            AnalyzerCore.tle (some langStops) false⟩,
          warnedLanguageFallback := false }
    | some (Except.error _) =>
        { wrapper := ⟨autoCompleteAnalyzer, autoCompleteAnalyzer, autoCompleteAnalyzer⟩,
          warnedLanguageFallback := true }
    | none =>
        { wrapper := ⟨normalAnalyzer, autoCompleteAnalyzer, nonStemmedAnalyzer⟩,
          warnedLanguageFallback := false }

/-! ## Engine state and lifecycle -/

/-- The mutable fields of the engine relevant to the analyzer cache and
lifecycle: the configured language and stopword set, the classpath
environment (analyzer lookup per language code), the cached
`PerFieldAnalyzerWrapper` (`none` until first built), and whether the
engine has been initialised (`afterPropertiesSet` has run). -/
structure EngineState : Type where
  analyzerLanguage : String
  stopSet : Option (List String)
  providers : String → Option (Except ReflErr (String × List String))
  analyzer : Option PerFieldAnalyzerWrapper
  ready : Bool

/-- The setter `setAnalyzerLanguage`. -/
def setAnalyzerLanguage (language : String) (st : EngineState) : EngineState :=
  { st with analyzerLanguage := language }

/-- `getAnalyser` with its cache: return the cached wrapper if the
`analyzer` field is non-null, otherwise build one from the current
settings and store it. -/
def getAnalyser (st : EngineState) : EngineState × PerFieldAnalyzerWrapper :=
  match st.analyzer with
  | some a => (st, a)
  | none =>
      let b := buildAnalyser st.analyzerLanguage st.stopSet
        (st.providers st.analyzerLanguage)
      ({ st with analyzer := some b.wrapper }, b.wrapper)

/-- `afterPropertiesSet` (the `@PostConstruct` initialiser): opens the
directory and writer — the writer configuration calls `getAnalyser()` —
starts both background tasks, and leaves the engine usable. -/
def afterPropertiesSet (st : EngineState) : EngineState :=
  { (getAnalyser st).1 with ready := true }

/-- The externally visible steps of `deleteDirectory`, named after the
statements of the method body. -/
inductive LifeEvent : Type where
  | cancelCommiterThread
  | closeNrtReopenThread
  | closeNrtManager
  | closeIndexWriter
  | closeFsDirectory
  | deleteIndexPath
  | reinit
  deriving DecidableEq

/-- The statement order of `deleteDirectory`: cancel the commit timer,
close the reopen thread, close the `NRTManager` (the searcher manager),
close the `IndexWriter`, close the directory, delete the index path,
then call `afterPropertiesSet()` again. -/
def deleteDirectoryEvents : List LifeEvent :=
  [LifeEvent.cancelCommiterThread, LifeEvent.closeNrtReopenThread,
   LifeEvent.closeNrtManager, LifeEvent.closeIndexWriter,
   LifeEvent.closeFsDirectory, LifeEvent.deleteIndexPath, LifeEvent.reinit]

/-- `deleteDirectory` on the success path: performs the steps of
`deleteDirectoryEvents` in order and re-runs `afterPropertiesSet`.  Note
that no step clears the `analyzer` field. -/
def deleteDirectory (st : EngineState) : EngineState × List LifeEvent :=
  (afterPropertiesSet st, deleteDirectoryEvents)

/-! ## Background tasks started by `afterPropertiesSet`

The reopen thread is `new NRTManagerReopenThread(nrtManager, 5.0, 0.1)`
with `setDaemon(true)`; the decimal literals are modelled as the exact
rationals they denote.  The commit task is a `new Timer(true)` scheduled
with delay and period `5 * 60 * 1000` milliseconds whose `run()` body
catches an `IOException` from `commit()` and logs it. -/

/-- Configuration of the `NRTManagerReopenThread` as constructed in
`afterPropertiesSet`. -/
structure ReopenThreadConfig : Type where
  targetMaxStaleSec : ℚ
  targetMinStaleSec : ℚ
  daemon : Bool
  deriving DecidableEq

/-- The reopen thread started by `afterPropertiesSet`. -/
def nrtReopenThread : ReopenThreadConfig :=
  { targetMaxStaleSec := 5.0, targetMinStaleSec := 0.1, daemon := true }

/-- Initial delay of the commit timer task, in milliseconds. -/
def commiterDelayMs : Nat := 5 * 60 * 1000

/-- Period of the commit timer task, in milliseconds. -/
def commiterPeriodMs : Nat := 5 * 60 * 1000

/-- One `run()` of the commit `TimerTask`, given the outcome of
`trackingIndexWriter.getIndexWriter().commit()`: a commit `IOException`
is caught and logged ("Error attempting to commit index writer") and
nothing is thrown, so the `Timer` keeps scheduling later ticks.  The
return value is the logged error, if any. -/
def commitTask {E : Type} (commitResult : Except E Unit) : Option E :=
  match commitResult with
  | Except.ok _ => none
  | Except.error e => some e

/-- A sequence of scheduled commit ticks: each tick runs the task on its
own commit outcome, independent of every earlier tick. -/
def runCommitTicks {E : Type} (ticks : List (Except E Unit)) : List (Option E) :=
  ticks.map commitTask

/-- The two background tasks `afterPropertiesSet` starts. -/
inductive BackgroundTask : Type where
  | reopenThread (cfg : ReopenThreadConfig)
  | commiterTimer (delayMs : Nat) (periodMs : Nat) (daemon : Bool)
  deriving DecidableEq

/-- The background tasks started by `afterPropertiesSet`: the reopen
thread and, separately, the commit timer (a daemon `Timer`). -/
def startedBackgroundTasks : List BackgroundTask :=
  [BackgroundTask.reopenThread nrtReopenThread,
   BackgroundTask.commiterTimer commiterDelayMs commiterPeriodMs true]

/-! ## Claims -/

/-- C1: every `search(fn)` call first waits for the tracked generation,
then acquires a snapshot, and releases it exactly once on every exit
path — normal return, the searcher throwing, and release itself failing
— so the acquire and release events are balanced and the refcount delta
over the call is zero. -/
theorem search_waits_acquires_releases_balanced :
    ∀ (RV E O : Type) (generation : Int) (fnOut : SOutcome RV E O)
      (releaseOut : Option E),
      (search generation fnOut releaseOut).1
          = [SearchEvent.waitForGen generation, SearchEvent.acquireSearcher,
             SearchEvent.releaseSearcher]
      ∧ (search generation fnOut releaseOut).1.count SearchEvent.acquireSearcher = 1
      ∧ (search generation fnOut releaseOut).1.count SearchEvent.releaseSearcher = 1
      ∧ ((search generation fnOut releaseOut).1.map refDelta).sum = 0 := by
  intro RV E O generation fnOut releaseOut
  refine ⟨rfl, ?_, ?_, rfl⟩ <;>
    simp [search, List.count_cons, SearchEvent.waitForGen.injEq]

/-- C2: a successful write with generation `g` moves the tracker to
`max (tracker, g)`; the sentinel `-1` leaves the tracker unchanged; and
over every sequence of writes the tracker is monotonically
non-decreasing. -/
theorem modifyIndex_tracker_max_and_monotone :
    ∀ (E : Type) (builds : List (Except E Int)) (g : Int) (b : Except E Int),
      runWrites (builds ++ [Except.ok g]) = max (runWrites builds) g
      ∧ runWrites (builds ++ [Except.ok (-1)]) = runWrites builds
      ∧ runWrites builds ≤ runWrites (builds ++ [b]) := by
  intro E builds g b
  refine ⟨?_, ?_, ?_⟩
  · rw [runWrites_append_one]
    exact max_comm g (runWrites builds)
  · rw [runWrites_append_one]
    exact max_eq_right (neg_one_le_runWrites builds)
  · rw [runWrites_append_one]
    exact le_writeStep (runWrites builds) b

/-- C3: when the builder throws during `modifyIndex`, the tracker keeps
its pre-call value, the error is wrapped in the fatal
`RuntimeException("Error while building index", cause)` and rethrown,
and the builder is never retried internally: the call's outcome depends
only on the builder's first (and only) invocation. -/
theorem modifyIndex_failure_atomic_wrapped_no_retry :
    ∀ (E : Type) (builds : List (Except E Int)) (e : E),
      modifyIndex (runWrites builds) (Except.error e)
          = (runWrites builds,
             Except.error (WriteError.wrapped "Error while building index" e))
      ∧ (∀ b b2 : Nat → Except E Int, b 0 = b2 0 →
          modifyIndexWith (runWrites builds) b = modifyIndexWith (runWrites builds) b2) := by
  intro E builds e
  constructor
  · show (max (-1) (runWrites builds), _) = _
    rw [max_eq_right (neg_one_le_runWrites builds)]
  · intro b b2 h
    unfold modifyIndexWith
    rw [h]

/-- C4 counterexample: `deleteDirectory` closes the `NRTManager` (the
searcher manager) BEFORE the `IndexWriter`, so the claimed order "close
the writer, the searcher-manager, and the directory in that order" is
false on the code. -/
theorem deleteDirectory_claimed_writer_first_false :
    ¬ deleteDirectoryEvents.indexOf LifeEvent.closeIndexWriter
        < deleteDirectoryEvents.indexOf LifeEvent.closeNrtManager := by
  decide

/-- C4 (amended): `deleteDirectory` performs, in order, cancellation of
both scheduled tasks, closing the searcher-manager, the writer and the
directory in that order, deletion of the underlying storage, and a
re-run of the initialiser as its last step, leaving the engine usable. -/
theorem deleteDirectory_order_and_ready :
    ∀ st : EngineState,
      (deleteDirectory st).2 = deleteDirectoryEvents
      ∧ deleteDirectoryEvents.indexOf LifeEvent.cancelCommiterThread
          < deleteDirectoryEvents.indexOf LifeEvent.closeNrtReopenThread
      ∧ deleteDirectoryEvents.indexOf LifeEvent.closeNrtReopenThread
          < deleteDirectoryEvents.indexOf LifeEvent.closeNrtManager
      ∧ deleteDirectoryEvents.indexOf LifeEvent.closeNrtManager
          < deleteDirectoryEvents.indexOf LifeEvent.closeIndexWriter
      ∧ deleteDirectoryEvents.indexOf LifeEvent.closeIndexWriter
          < deleteDirectoryEvents.indexOf LifeEvent.closeFsDirectory
      ∧ deleteDirectoryEvents.indexOf LifeEvent.closeFsDirectory
          < deleteDirectoryEvents.indexOf LifeEvent.deleteIndexPath
      ∧ deleteDirectoryEvents.indexOf LifeEvent.deleteIndexPath
          < deleteDirectoryEvents.indexOf LifeEvent.reinit
      ∧ deleteDirectoryEvents.getLast? = some LifeEvent.reinit
      ∧ (deleteDirectory st).1.ready = true := by
  intro st
  exact ⟨rfl, by decide, by decide, by decide, by decide, by decide, by decide,
    by decide, rfl⟩

/-- C5 counterexample: for language "fr" with a stopword set loaded and
NO analyzer class found on the classpath, the build keeps the default
stemmed and non-stemmed pipelines (it does not fall back to the
autocomplete pipeline `tle none false`) and logs no fallback warning. -/
theorem buildAnalyser_missing_provider_keeps_default :
    (buildAnalyser "fr" (some ["the"]) none).wrapper.defaultAnalyzer
        ≠ AnalyzerCore.tle none false
    ∧ (buildAnalyser "fr" (some ["the"]) none).wrapper.nonStemmed
        ≠ AnalyzerCore.tle none false
    ∧ (buildAnalyser "fr" (some ["the"]) none).warnedLanguageFallback = false := by
  refine ⟨by decide, by decide, by decide⟩

/-- C5 (amended): for a configured non-default language, when a found
analyzer class cannot be instantiated reflectively the build falls back
to the autocomplete (no-op) pipeline for both the normal and the
non-stemmed roles and logs a warning; when no analyzer class is found
at all, the default stemmed and non-stemmed pipelines are kept and no
warning is logged; in both cases the build succeeds, so engine
initialisation never fails over the missing provider. -/
theorem buildAnalyser_reflection_fallback :
    ∀ (language : String) (stopSet : Option (List String)),
      language ≠ "en" →
        (∀ err : ReflErr,
          buildAnalyser language stopSet (some (Except.error err))
            = ⟨⟨AnalyzerCore.tle none false, AnalyzerCore.tle none false,
                AnalyzerCore.tle none false⟩, true⟩)
        ∧ buildAnalyser language stopSet none
            = ⟨⟨AnalyzerCore.tle stopSet true, AnalyzerCore.tle none false,
                AnalyzerCore.tle stopSet false⟩, false⟩ := by
  intro language stopSet h
  constructor
  · intro err
    simp [buildAnalyser, h]
  · simp [buildAnalyser, h]

/-- C5 witness: the amended claim at language "fr" with no stopwords,
for a failing provider and for a missing provider. -/
theorem buildAnalyser_reflection_fallback_witness :
    buildAnalyser "fr" none (some (Except.error ReflErr.instantiationFailed))
        = ⟨⟨AnalyzerCore.tle none false, AnalyzerCore.tle none false,
            AnalyzerCore.tle none false⟩, true⟩
    ∧ buildAnalyser "fr" none none
        = ⟨⟨AnalyzerCore.tle none true, AnalyzerCore.tle none false,
            AnalyzerCore.tle none false⟩, false⟩ :=
  ⟨(buildAnalyser_reflection_fallback "fr" none (by decide)).1
      ReflErr.instantiationFailed,
   (buildAnalyser_reflection_fallback "fr" none (by decide)).2⟩

/-- C6: an I/O failure while reading the snapshot is wrapped as
`ErrorDuringSearchException("Error searching index", cause)`, a failure
while releasing the snapshot as `ErrorDuringSearchException("Error
releasing searcher", cause)`, and no error value of the first kind
equals one of the second, so the caller can tell the two apart. -/
theorem search_error_kinds_distinct :
    ∀ (RV E O : Type) (generation : Int) (rv : RV) (e : E) (r : E),
      (@search RV E O generation (SOutcome.ioFailure e) none).2
          = Except.error (Thrown.duringSearch "Error searching index" e)
      ∧ (@search RV E O generation (SOutcome.ok rv) (some r)).2
          = Except.error (Thrown.duringSearch "Error releasing searcher" r)
      ∧ (Thrown.duringSearch "Error searching index" e : Thrown E O)
          ≠ Thrown.duringSearch "Error releasing searcher" r := by
  intro RV E O generation rv e r
  refine ⟨rfl, rfl, ?_⟩
  intro h
  injection h with hmsg hcause
  exact absurd hmsg (by decide)

/-- C7: the commit timer runs with a fixed five-minute (300000 ms) delay
and period as a background task separate from the reopen thread; a
failing commit tick is logged and swallowed (the task returns instead of
throwing), and later ticks run regardless of earlier failures. -/
theorem commiterThread_period_and_containment :
    commiterDelayMs = 300000
    ∧ commiterPeriodMs = 300000
    ∧ startedBackgroundTasks
        = [BackgroundTask.reopenThread nrtReopenThread,
           BackgroundTask.commiterTimer 300000 300000 true]
    ∧ (∀ (E : Type) (e : E), commitTask (Except.error e) = some e)
    ∧ (∀ (E : Type) (ticks : List (Except E Unit)) (t : Except E Unit),
        runCommitTicks (ticks ++ [t]) = runCommitTicks ticks ++ [commitTask t])
    ∧ BackgroundTask.commiterTimer commiterDelayMs commiterPeriodMs true
        ≠ BackgroundTask.reopenThread nrtReopenThread := by
  refine ⟨rfl, rfl, rfl, fun E e => rfl, fun E ticks t => ?_, by intro h; cases h⟩
  simp [runCommitTicks]

/-- C8: the reopen thread is configured with a target refresh interval
of 5 seconds and a minimum of 0.1 seconds between reopens, and is a
daemon thread, so it does not keep the process alive on its own. -/
theorem nrtReopenThread_five_sec_tenth_sec_daemon :
    nrtReopenThread.targetMaxStaleSec = 5
    ∧ nrtReopenThread.targetMinStaleSec = 1 / 10
    ∧ nrtReopenThread.daemon = true := by
  refine ⟨by norm_num [nrtReopenThread], by norm_num [nrtReopenThread], rfl⟩

/-- A classpath on which exactly the language code "de" resolves to a
loadable Lucene analyzer class with a default stop set. -/
def deOnlyClasspath : String → Option (Except ReflErr (String × List String)) :=
  fun language =>
    if language = "de" then
      some (Except.ok ("org.apache.lucene.analysis.de.GermanAnalyzer", ["der"]))
    else none

/-- An engine configured for English on `deOnlyClasspath`, before its
first analyzer build. -/
def freshEnglishEngine : EngineState :=
  { analyzerLanguage := "en", stopSet := none, providers := deOnlyClasspath,
    analyzer := none, ready := false }

/-- C9 counterexample: build the analyzer once (for "en"), switch the
engine's language to "de" (for which a provider exists), then run
`deleteDirectory`.  The next `getAnalyser` call still returns the
cached English pipeline, not the pipeline a fresh build at the current
settings would produce: the directory reset does not invalidate the
cache. -/
theorem getAnalyser_cache_survives_reset :
    (getAnalyser ((deleteDirectory (setAnalyzerLanguage "de"
          (getAnalyser freshEnglishEngine).1)).1)).2
        = (getAnalyser freshEnglishEngine).2
    ∧ (getAnalyser ((deleteDirectory (setAnalyzerLanguage "de"
          (getAnalyser freshEnglishEngine).1)).1)).2
        ≠ (buildAnalyser "de" none (deOnlyClasspath "de")).wrapper := by
  refine ⟨rfl, by decide⟩

/-- C9 (amended): the analyzer pipeline is built at most once per engine
instance — the first `getAnalyser` call constructs and caches it, and
every later call returns the cached pipeline unchanged, even after
setting changes — but `deleteDirectory` does NOT invalidate the cache:
the reset keeps the cached pipeline and the call after the reset
returns it again. -/
theorem getAnalyser_cached_once_kept_across_reset :
    ∀ st : EngineState,
      getAnalyser (getAnalyser st).1 = ((getAnalyser st).1, (getAnalyser st).2)
      ∧ (∀ language : String,
          (getAnalyser (setAnalyzerLanguage language (getAnalyser st).1)).2
            = (getAnalyser st).2)
      ∧ (deleteDirectory (getAnalyser st).1).1.analyzer = some (getAnalyser st).2
      ∧ (getAnalyser ((deleteDirectory (getAnalyser st).1).1)).2
          = (getAnalyser st).2 := by
  intro st
  rcases st with ⟨lang, stop, prov, ana, rdy⟩
  cases ana with
  | some a => exact ⟨rfl, fun language => rfl, rfl, rfl⟩
  | none => exact ⟨rfl, fun language => rfl, rfl, rfl⟩

/-- C10 counterexample: when the searcher throws a non-I/O exception and
the release then fails, the caller receives the wrapped release error,
not the original exception: the non-I/O exception does not always
propagate to the caller. -/
theorem search_release_failure_replaces_unchecked :
    (@search Nat String String 0 (SOutcome.otherFailure "boom") (some "releaseBoom")).2
        ≠ Except.error (Thrown.uncaught "boom")
    ∧ (@search Nat String String 0 (SOutcome.otherFailure "boom") (some "releaseBoom")).2
        = Except.error (Thrown.duringSearch "Error releasing searcher" "releaseBoom") := by
  constructor
  · intro h
    injection h with h2
    injection h2
  · rfl

/-- C10 (amended): when the searcher throws a non-I/O exception, the
snapshot release is still attempted exactly once; if the release
succeeds the exception propagates to the caller unwrapped (it is not
converted into the search-error kind), and if the release itself fails
the wrapped release error replaces it. -/
theorem search_unchecked_propagates_unwrapped :
    ∀ (RV E O : Type) (generation : Int) (o : O),
      (@search RV E O generation (SOutcome.otherFailure o) none).2
          = Except.error (Thrown.uncaught o)
      ∧ (@search RV E O generation
            (SOutcome.otherFailure o) none).1.count SearchEvent.releaseSearcher = 1
      ∧ (∀ r : E, (@search RV E O generation (SOutcome.otherFailure o) (some r)).2
            = Except.error (Thrown.duringSearch "Error releasing searcher" r)) := by
  intro RV E O generation o
  refine ⟨rfl, ?_, fun r => rfl⟩
  simp [search, List.count_cons]

end AbstractIndexEngine
